import Mathlib

/-!
Verification of the OpenTTD water flood / dry-up propagation engine
(`src/water_cmd.cpp`): the flood-behaviour classifier
(`GetFloodingBehaviour`), the flood propagator (`TileLoop_Water`,
FLOOD_ACTIVE case, with `DoFloodTile`), the dry-up reducer (FLOOD_DRYUP
case, with `DoDryUp`) and the slope-indexed direction table
(`_flood_from_dirs`).

The grid is modelled as a fixed-size store of tiles addressed by integer
coordinates; coordinates outside the bounds read as void.  Helper queries
that live outside the analysed translation unit (direction offsets, the
foundation query, the landscape-clear command, `FloodHalftile`) are
modelled from the specification and marked as such in their doc comments.
Side effects (the vehicle flood hook, redraw marks, signal updates) are
recorded in an explicit event list.
-/

namespace OpenTTDFlood

/-- Enumeration of the four flood behaviours returned by
`GetFloodingBehaviour` (`FloodingBehaviour` in `water_cmd.cpp`). -/
inductive FloodingBehaviour
  | active
  | dryup
  | passive
  | none
  deriving DecidableEq

/-- Enumeration of the eight compass directions in the order of the
`Direction` enum (`DIR_N = 0` … `DIR_NW = 7`), the order in which
`TileLoop_Water` iterates `DIR_BEGIN .. DIR_END`. -/
inductive Direction
  | N
  | NE
  | E
  | SE
  | S
  | SW
  | W
  | NW
  deriving DecidableEq

/-- List of all eight directions in enum order. -/
def allDirections : List Direction := [.N, .NE, .E, .SE, .S, .SW, .W, .NW]

/-- Modelled from the spec: the coordinate offset of each direction
(`TileIndexDiffCByDir` / `_tileoffs_by_dir`, not under `src/`).  In the
grid's coordinate convention the axes run NE–SW (x) and NW–SE (y), so
NE/SE/SW/NW move along a single axis while N/E/S/W touch a corner
neighbour. -/
def dirOffset : Direction → Int × Int
  | .N  => (-1, -1)
  | .NE => (-1, 0)
  | .E  => (-1, 1)
  | .SE => (0, 1)
  | .S  => (1, 1)
  | .SW => (1, 0)
  | .W  => (1, -1)
  | .NW => (0, -1)

/-- Modelled from the spec: `ReverseDir` (not under `src/`), the opposite
compass direction. -/
def ReverseDir : Direction → Direction
  | .N  => .S
  | .NE => .SW
  | .E  => .W
  | .SE => .NW
  | .S  => .N
  | .SW => .NE
  | .W  => .E
  | .NW => .SE

/-- Representation of a tile slope: which of the four corners are raised
(`SLOPE_W/S/E/N` bits) plus the steep flag (`SLOPE_STEEP`).  Halftile bits
are masked away everywhere the flood engine reads a slope, so they are not
modelled. -/
structure Slope where
  w : Bool
  s : Bool
  e : Bool
  n : Bool
  steep : Bool
  deriving DecidableEq

/-- Constant for `SLOPE_FLAT`. -/
def SLOPE_FLAT : Slope := ⟨false, false, false, false, false⟩

/-- Predicate `IsSlopeWithOneCornerRaised`: the slope is exactly one of
`SLOPE_W`, `SLOPE_S`, `SLOPE_E`, `SLOPE_N` (one raised corner, no steep
bit). -/
def IsSlopeWithOneCornerRaised (sl : Slope) : Bool :=
  !sl.steep &&
    ((sl.w && !sl.s && !sl.e && !sl.n) ||
     (!sl.w && sl.s && !sl.e && !sl.n) ||
     (!sl.w && !sl.s && sl.e && !sl.n) ||
     (!sl.w && !sl.s && !sl.e && sl.n))

/-- Numeric index of a slope into `_flood_from_dirs`: the corner bits with
`SLOPE_STEEP` (and halftile bits) masked away, exactly
`slope & ~SLOPE_HALFTILE_MASK & ~SLOPE_STEEP`. -/
def slopeIndex (sl : Slope) : Nat :=
  (cond sl.w 1 0) + (cond sl.s 2 0) + (cond sl.e 4 0) + (cond sl.n 8 0)

/-- Table `_flood_from_dirs` (`water_cmd.cpp` lines 51–67): for each masked
slope, the set of directions from which that slope can be flooded. -/
def floodFromDirsTable : Nat → List Direction
  | 0  => [.NW, .SW, .SE, .NE]  -- SLOPE_FLAT
  | 1  => [.NE, .SE]            -- SLOPE_W
  | 2  => [.NW, .NE]            -- SLOPE_S
  | 3  => [.NE]                 -- SLOPE_SW
  | 4  => [.NW, .SW]            -- SLOPE_E
  | 5  => []                    -- SLOPE_EW
  | 6  => [.NW]                 -- SLOPE_SE
  | 7  => [.N, .NW, .NE]        -- SLOPE_WSE, SLOPE_STEEP_S
  | 8  => [.SW, .SE]            -- SLOPE_N
  | 9  => [.SE]                 -- SLOPE_NW
  | 10 => []                    -- SLOPE_NS
  | 11 => [.E, .NE, .SE]        -- SLOPE_NWS, SLOPE_STEEP_W
  | 12 => [.SW]                 -- SLOPE_NE
  | 13 => [.S, .SW, .SE]        -- SLOPE_ENW, SLOPE_STEEP_N
  | 14 => [.W, .SW, .NW]        -- SLOPE_SEN, SLOPE_STEEP_E
  | _  => []                    -- SLOPE_WSEN is not a representable tile slope

/-- Enumeration of the tile types the flood engine distinguishes
(`MP_CLEAR`, `MP_RAILWAY`, `MP_TREES`, `MP_WATER`, `MP_STATION`,
`MP_INDUSTRY`, `MP_OBJECT`, `MP_VOID`); `house` stands for every other
tile type, which the engine treats uniformly. -/
inductive TType
  | clear
  | railway
  | trees
  | water
  | station
  | industry
  | object
  | void
  | house
  deriving DecidableEq

/-- Enumeration of water tile sub-types (`WaterTileType`). -/
inductive WaterTileType
  | clear
  | coast
  | lock
  | depot
  deriving DecidableEq

/-- Enumeration of water classes (`WaterClass`). -/
inductive WaterClass
  | sea
  | canal
  | river
  | invalid
  deriving DecidableEq

/-- Enumeration of the rail ground types the engine reads or writes
(`RAIL_GROUND_WATER`, the four dry-up fence grounds, and a generic rest). -/
inductive RailGround
  | grass
  | water
  | fenceHoriz1
  | fenceHoriz2
  | fenceVert1
  | fenceVert2
  deriving DecidableEq

/-- Enumeration of the track layouts relevant to `DoDryUp`
(`TRACK_BIT_UPPER/LOWER/LEFT/RIGHT`); `other` is any other layout, which
`DoDryUp` asserts unreachable for water-ground rail. -/
inductive TrackBits
  | upper
  | lower
  | left
  | right
  | other
  deriving DecidableEq

/-- Enumeration of tree ground types (`TREE_GROUND_SHORE`,
`TREE_GROUND_GRASS`, and a generic rest). -/
inductive TreeGround
  | grass
  | shore
  | other
  deriving DecidableEq

/-- Record of the per-tile state read and written by the flood engine.
`slope` and `height` are the raw tile shape (`GetTileSlope` / tile z);
`foundSlope` and `foundHeight` carry the result of `GetFoundationSlope`,
the foundation/shape-adjustment query that the spec treats as an external
collaborator (§6).  `clearOk` is the oracle for the external landscape
clear command `CMD_LANDSCAPE_CLEAR`: for coast tiles it is exactly
"`EnsureNoVehicleOnGround` succeeds" (`ClearTile_Water`,
`WATER_TILE_COAST` case, `water_cmd.cpp` 582–598).  `nonFlooding` is the
quiescence cache (`IsNonFloodingWaterTile` / `SetNonFloodingWaterTile`). -/
structure TileData where
  ttype : TType
  wtype : WaterTileType := .clear
  wclass : WaterClass := .invalid
  isBuoyOrDock : Bool := false
  isPlainRail : Bool := true
  railGround : RailGround := .grass
  trackBits : TrackBits := .other
  treeGround : TreeGround := .grass
  treeDensity : Nat := 0
  slope : Slope := SLOPE_FLAT
  height : Nat := 0
  foundSlope : Slope := SLOPE_FLAT
  foundHeight : Nat := 0
  clearOk : Bool := true
  nonFlooding : Bool := false
  deriving DecidableEq

/-- Coordinate of a cell in the grid. -/
structure Pos where
  x : Int
  y : Int
  deriving DecidableEq

/-- Model of the world grid: a fixed-size, randomly addressable store of
tiles (spec §3).  Only coordinates inside `sizeX × sizeY` are real;
everything outside reads as void. -/
structure Grid where
  sizeX : Nat
  sizeY : Nat
  tiles : Int → Int → TileData

/-- Canonical tile returned for out-of-grid coordinates: the spec
classifies such coordinates as void (§3). -/
def voidTile : TileData := { ttype := .void }

/-- Bounds check for a coordinate. -/
def Grid.inBounds (g : Grid) (p : Pos) : Bool :=
  decide (0 ≤ p.x) && decide (p.x < (g.sizeX : Int)) &&
  decide (0 ≤ p.y) && decide (p.y < (g.sizeY : Int))

/-- Read a tile; out-of-bounds coordinates read as void. -/
def Grid.get (g : Grid) (p : Pos) : TileData :=
  if g.inBounds p then g.tiles p.x p.y else voidTile

/-- Write a tile in place. -/
def Grid.set (g : Grid) (p : Pos) (t : TileData) : Grid :=
  { g with tiles := fun x y => if x == p.x && y == p.y then t else g.tiles x y }

/-- Modelled from the spec: `AddTileIndexDiffCWrap` (`map_func.h`, not
under `src/`) — add a direction offset to a coordinate, yielding `none`
(INVALid_TILE) when the result leaves the grid (§4.2 step 2, §4.3). -/
def AddTileIndexDiffCWrap (g : Grid) (p : Pos) (d : Direction) : Option Pos :=
  let o := dirOffset d
  let q : Pos := ⟨p.x + o.1, p.y + o.2⟩
  if g.inBounds q then some q else none

/-- Predicate `IsCanal or IsRiver` as used by `MarkTileDirtyIfCanalOrRiver`
(`water_cmd.cpp` 75–78): a plain water tile whose class is canal or
river. -/
def isCanalOrRiver (t : TileData) : Bool :=
  t.ttype == .water && t.wtype == .clear && (t.wclass == .canal || t.wclass == .river)

/-- Enumeration of the externally observable side effects of the engine:
the vehicle flood hook (`FloodVehicles`), redraw-invalidate marks
(`MarkTileDirtyByTile`), signal refreshes (`UpdateSignalsInBuffer`) and
water-region invalidation (`InvalidateWaterRegion`). -/
inductive Ev
  | floodVeh (p : Pos)
  | dirty (p : Pos)
  | updateSignals
  | invalidRegion (p : Pos)
  deriving DecidableEq

/-- Function `MarkCanalsAndRiversAroundDirty` (`water_cmd.cpp` 86–91):
mark every canal or river tile around `p` dirty. -/
def MarkCanalsAndRiversAroundDirty (g : Grid) (p : Pos) : List Ev :=
  allDirections.filterMap fun d =>
    match AddTileIndexDiffCWrap g p d with
    | some q => if isCanalOrRiver (g.get q) then some (.dirty q) else none
    | none => none

/-- Treatment of one direction by `ClearNeighbourNonFloodingStates`: clear
the quiescence cache of the neighbour when it is a valid water tile. -/
def clearNFStep (p : Pos) (d : Direction) (g : Grid) : Grid :=
  match AddTileIndexDiffCWrap g p d with
  | some q =>
      if (g.get q).ttype == .water then
        g.set q { g.get q with nonFlooding := false }
      else g
  | Option.none => g

/-- Helper for `ClearNeighbourNonFloodingStates`, recursing over a
direction list. -/
def clearNFAux (p : Pos) : List Direction → Grid → Grid
  | [], g => g
  | d :: ds, g => clearNFAux p ds (clearNFStep p d g)

/-- Function `ClearNeighbourNonFloodingStates` (`water_cmd.cpp` 97–103):
clear the quiescence cache of every water tile around `p`. -/
def ClearNeighbourNonFloodingStates (g : Grid) (p : Pos) : Grid :=
  clearNFAux p allDirections g

/-- Modelled from the spec: `MakeShore` (`water_map.h`, not under `src/`)
turns the tile into a sea-class coast tile; the terrain shape is
untouched, and coast tiles carry no foundation. -/
def MakeShore (t : TileData) : TileData :=
  { t with ttype := .water, wtype := .coast, wclass := .sea,
           nonFlooding := false, foundSlope := t.slope, foundHeight := t.height }

/-- Modelled from the spec: `MakeSea` (`water_map.h`, not under `src/`)
turns the tile into open sea water; the terrain shape is untouched. -/
def MakeSea (t : TileData) : TileData :=
  { t with ttype := .water, wtype := .clear, wclass := .sea,
           nonFlooding := false, foundSlope := t.slope, foundHeight := t.height }

/-- Modelled from the spec: `MakeClear(tile, CLEAR_GRASS, 3)`
(`clear_map.h`, not under `src/`) turns the tile into plain grass land. -/
def MakeClearGrass (t : TileData) : TileData :=
  { t with ttype := .clear, wtype := .clear, wclass := .invalid,
           nonFlooding := false, foundSlope := t.slope, foundHeight := t.height }

/-- Modelled from the spec: `FloodHalftile` (`rail_cmd.cpp`, not under
`src/`) marks the matching sub-area of a plain-rail tile as submerged
(§4.2 step 7), returning whether anything changed. -/
def FloodHalftile (t : TileData) : TileData × Bool :=
  if t.railGround == .water then (t, false)
  else ({ t with railGround := .water }, true)

/-- Function `GetFloodingBehaviour` (`water_cmd.cpp` 1084–1118): classify
the flooding behaviour of a tile.  The classification is a pure function
of the tile's current state. -/
def GetFloodingBehaviour (t : TileData) : FloodingBehaviour :=
  match t.ttype with
  | .water =>
      if t.wtype == .coast then
        (if IsSlopeWithOneCornerRaised t.slope then .active else .dryup)
      else if t.wclass == .sea then .active else .none
  | .station => if t.wclass == .sea then .active else .none
  | .industry => if t.wclass == .sea then .active else .none
  | .object => if t.wclass == .sea then .active else .none
  | .railway =>
      if t.railGround == .water then
        (if IsSlopeWithOneCornerRaised t.slope then .active else .dryup)
      else .none
  | .trees => if t.treeGround == .shore then .dryup else .none
  | .void => .active
  | .clear => .none
  | .house => .none

/-- Statement of the classification table in the words of the spec (claim
C1): void tiles are Active; coast tiles are Active when the slope has
exactly one raised corner and DryUp otherwise; water, station, industry
and object tiles are Active when their water class is sea and None
otherwise; rail tiles with water ground are Active with one raised corner
and DryUp otherwise; tree tiles with shore ground are DryUp; every other
tile is None. -/
def specClassify (t : TileData) : FloodingBehaviour :=
  if t.ttype == .void then .active
  else if t.ttype == .water && t.wtype == .coast then
    (if IsSlopeWithOneCornerRaised t.slope then .active else .dryup)
  else if t.ttype == .water || t.ttype == .station || t.ttype == .industry
          || t.ttype == .object then
    (if t.wclass == .sea then .active else .none)
  else if t.ttype == .railway && t.railGround == .water then
    (if IsSlopeWithOneCornerRaised t.slope then .active else .dryup)
  else if t.ttype == .trees && t.treeGround == .shore then .dryup
  else .none

/-- Fence ground chosen by `DoDryUp` for a drying rail tile, keyed by the
submerged track orientation (`water_cmd.cpp` 1201–1207).  Other layouts
are `NOT_REACHED` in the source; the model leaves the ground unchanged
there. -/
def dryUpRailGround (tb : TrackBits) (old : RailGround) : RailGround :=
  match tb with
  | .upper => .fenceHoriz1
  | .lower => .fenceHoriz2
  | .left  => .fenceVert1
  | .right => .fenceVert2
  | .other => old

/-- Per-tile outcome of `DoFloodTile` (`water_cmd.cpp` 1123–1186): the
updated tile if anything changed, whether `FloodVehicles` was invoked, and
the `flooded` flag.  Mirrors the branch structure of the source: on a
non-flat slope, plain rail floods a halftile (vehicles flooded first),
trees whose slope does not have exactly one raised corner get shore
ground, trees with one raised corner fall through to the clear case, and
clear land becomes coast when the landscape-clear command succeeds; on a
flat slope vehicles are flooded and the tile becomes sea when the
landscape-clear command succeeds. -/
def floodTileOutcome (t : TileData) : Option TileData × Bool × Bool :=
  if t.slope ≠ SLOPE_FLAT then
    match t.ttype with
    | .railway =>
        if t.isPlainRail then
          ((if (FloodHalftile t).2 then some (FloodHalftile t).1 else Option.none),
            true, (FloodHalftile t).2)
        else (Option.none, false, false)
    | .trees =>
        if !(IsSlopeWithOneCornerRaised t.slope) then
          (some { t with treeGround := .shore, treeDensity := 3 }, false, true)
        else if t.clearOk then (some (MakeShore t), false, true)
        else (Option.none, false, false)
    | .clear =>
        if t.clearOk then (some (MakeShore t), false, true)
        else (Option.none, false, false)
    | _ => (Option.none, false, false)
  else
    if t.clearOk then (some (MakeSea t), true, true)
    else (Option.none, true, false)

/-- Function `DoFloodTile` (`water_cmd.cpp` 1123–1186): flood one target
tile, recording the vehicle flood hook, redraw marks, and — when
something flooded — the surrounding canal/river redraw marks, the signal
update and the water-region invalidation. -/
def DoFloodTile (g : Grid) (p : Pos) : Grid × List Ev :=
  let oc := floodTileOutcome (g.get p)
  let g1 := match oc.1 with
    | some t2 => g.set p t2
    | Option.none => g
  let evs0 := (if oc.2.1 then [Ev.floodVeh p] else []) ++
              (if oc.1.isSome then [Ev.dirty p] else [])
  (g1,
    if oc.2.2 then
      evs0 ++ MarkCanalsAndRiversAroundDirty g1 p ++ [.updateSignals, .invalidRegion p]
    else evs0)

/-- Function `DoDryUp` (`water_cmd.cpp` 1191–1230): revert one tile a step
toward dry land.  Rail gets a fence ground keyed by its track layout,
trees get grass ground, and coast runs the landscape-clear command, whose
coast execute path (`ClearTile_Water`, `WATER_TILE_COAST` case) fails
exactly when a vehicle occupies the tile (`clearOk`) and on success clears
the square, marks surrounding canals and rivers dirty and clears the
neighbouring quiescence caches before the tile is remade as grass. -/
def DoDryUp (g : Grid) (p : Pos) : Grid × List Ev :=
  match (g.get p).ttype with
  | .railway =>
      (g.set p { g.get p with
          railGround := dryUpRailGround (g.get p).trackBits (g.get p).railGround },
        [.dirty p])
  | .trees =>
      (g.set p { g.get p with treeGround := .grass, treeDensity := 3 }, [.dirty p])
  | .water =>
      if (g.get p).clearOk then
        (ClearNeighbourNonFloodingStates (g.set p (MakeClearGrass (g.get p))) p,
          MarkCanalsAndRiversAroundDirty (g.set p (MakeClearGrass (g.get p))) p ++ [.dirty p])
      else (g, [])
  | _ => (g, [])

/-- Decision taken for one direction of the flood scan (`TileLoop_Water`,
FLOOD_ACTIVE case, `water_cmd.cpp` 1248–1270): `skip` for invalid, water,
and buoy/dock neighbours, which can never become floodable from here;
`mark` for neighbours that set `continue_flooding` but fail a later check
(shore trees, raised ground, the slope gate); `flood q` for neighbours
that get flooded. -/
inductive ScanAction
  | skip
  | mark
  | flood (q : Pos)
  deriving DecidableEq

/-- Classification of one scan direction, mirroring the checks of the
FLOOD_ACTIVE loop body in source order. -/
def scanDir (g : Grid) (p : Pos) (d : Direction) : ScanAction :=
  match AddTileIndexDiffCWrap g p d with
  | Option.none => .skip
  | some q =>
      if (g.get q).ttype == .void then .skip
      else if (g.get q).ttype == .water then .skip
      else if (g.get q).ttype == .station && (g.get q).isBuoyOrDock then .skip
      else if (g.get q).ttype == .trees && (g.get q).treeGround == .shore then .mark
      else if 0 < (g.get q).foundHeight then .mark
      else if !((floodFromDirsTable (slopeIndex (g.get q).foundSlope)).contains (ReverseDir d)) then
        .mark
      else .flood q

/-- Direction loop of the FLOOD_ACTIVE case of `TileLoop_Water`, threading
the grid, the emitted events and the `continue_flooding` flag. -/
def floodScanAux (p : Pos) : List Direction → Grid → Bool → Grid × List Ev × Bool
  | [], g, cont => (g, [], cont)
  | d :: ds, g, cont =>
      match scanDir g p d with
      | .skip => floodScanAux p ds g cont
      | .mark => floodScanAux p ds g true
      | .flood q =>
          let fd := DoFloodTile g q
          let rest := floodScanAux p ds fd.1 true
          (rest.1, fd.2 ++ rest.2.1, rest.2.2)

/-- Function `TileLoop_Water` (`water_cmd.cpp` 1238–1291): the engine's
entry point (`ProcessTick` in the spec).  Water tiles with the quiescence
cache set take the fast path; Active tiles scan all eight directions and
flood eligible neighbours, setting the cache when nothing could ever be
flooded; DryUp tiles dry up unless a neighbour in their slope's direction
set classifies Active or Passive; everything else is a no-op. -/
def TileLoop_Water (g : Grid) (p : Pos) : Grid × List Ev :=
  if (g.get p).ttype == .water && (g.get p).nonFlooding then (g, [])
  else
    match GetFloodingBehaviour (g.get p) with
    | .active =>
        let r := floodScanAux p allDirections g false
        if !r.2.2 && (r.1.get p).ttype == .water then
          (r.1.set p { r.1.get p with nonFlooding := true }, r.2.1)
        else (r.1, r.2.1)
    | .dryup =>
        if (floodFromDirsTable (slopeIndex (g.get p).foundSlope)).any (fun d =>
            match AddTileIndexDiffCWrap g p d with
            | Option.none => false
            | some q =>
                GetFloodingBehaviour (g.get q) == .active ||
                GetFloodingBehaviour (g.get q) == .passive) then
          (g, [])
        else DoDryUp g p
    | _ => (g, [])

/-- Predicate for neighbours the flood scan skips as permanently
unfloodable: void, water, or a buoy/dock station tile. -/
def permanentlyUnfloodable (t : TileData) : Bool :=
  t.ttype == .void || t.ttype == .water || (t.ttype == .station && t.isBuoyOrDock)

/-! Basic lemmas about the grid store and the neighbour computation. -/

theorem Grid.sizeX_set (g : Grid) (p : Pos) (t : TileData) : (g.set p t).sizeX = g.sizeX := rfl

theorem Grid.sizeY_set (g : Grid) (p : Pos) (t : TileData) : (g.set p t).sizeY = g.sizeY := rfl

theorem Grid.get_set_ne {g : Grid} {p q : Pos} {t : TileData} (h : q ≠ p) :
    (g.set p t).get q = g.get q := by
  have hne : ¬(q.x = p.x ∧ q.y = p.y) := by
    rintro ⟨hx, hy⟩
    exact h (by cases p; cases q; simp_all)
  simp [Grid.get, Grid.set, Grid.inBounds, hne]

theorem Grid.get_set_self {g : Grid} {p : Pos} {t : TileData} (h : g.inBounds p = true) :
    (g.set p t).get p = t := by
  simp [Grid.get, Grid.set, Grid.inBounds] at h ⊢
  simp [h]

theorem inBounds_of_ttype {g : Grid} {p : Pos} (h : (g.get p).ttype ≠ .void) :
    g.inBounds p = true := by
  by_contra hb
  have hv : g.get p = voidTile := by
    unfold Grid.get
    rw [if_neg (by simpa using hb)]
  rw [hv] at h
  exact h rfl

theorem wrap_some_ne {g : Grid} {p q : Pos} {d : Direction}
    (h : AddTileIndexDiffCWrap g p d = some q) : q ≠ p := by
  unfold AddTileIndexDiffCWrap at h
  cases d <;>
    · simp only [dirOffset] at h
      split at h
      · injection h with h
        subst h
        intro he
        have hx := congrArg Pos.x he
        have hy := congrArg Pos.y he
        simp only at hx hy
        omega
      · cases h

theorem wrap_congr {g g2 : Grid} (hx : g2.sizeX = g.sizeX) (hy : g2.sizeY = g.sizeY)
    (p : Pos) (d : Direction) :
    AddTileIndexDiffCWrap g2 p d = AddTileIndexDiffCWrap g p d := by
  unfold AddTileIndexDiffCWrap Grid.inBounds
  rw [hx, hy]

/-! Lemmas about `DoFloodTile`: its grid component, frame properties and
the shape of its event list. -/

theorem DoFloodTile_fst (g : Grid) (p : Pos) :
    (DoFloodTile g p).1 =
      match (floodTileOutcome (g.get p)).1 with
      | some t2 => g.set p t2
      | Option.none => g := rfl

theorem DoFloodTile_sizeX (g : Grid) (p : Pos) : (DoFloodTile g p).1.sizeX = g.sizeX := by
  rw [DoFloodTile_fst]
  cases hoc : (floodTileOutcome (g.get p)).1 <;> rfl

theorem DoFloodTile_sizeY (g : Grid) (p : Pos) : (DoFloodTile g p).1.sizeY = g.sizeY := by
  rw [DoFloodTile_fst]
  cases hoc : (floodTileOutcome (g.get p)).1 <;> rfl

theorem DoFloodTile_get_ne {g : Grid} {p q : Pos} (h : q ≠ p) :
    (DoFloodTile g p).1.get q = g.get q := by
  rw [DoFloodTile_fst]
  cases hoc : (floodTileOutcome (g.get p)).1
  · rfl
  · exact Grid.get_set_ne h

theorem mem_markCanals {g : Grid} {p : Pos} {e : Ev}
    (h : e ∈ MarkCanalsAndRiversAroundDirty g p) :
    ∃ q d, AddTileIndexDiffCWrap g p d = some q ∧ isCanalOrRiver (g.get q) = true ∧
      e = .dirty q := by
  unfold MarkCanalsAndRiversAroundDirty at h
  rw [List.mem_filterMap] at h
  obtain ⟨d, _, hd⟩ := h
  cases hw : AddTileIndexDiffCWrap g p d with
  | none => rw [hw] at hd; cases hd
  | some q =>
      rw [hw] at hd
      split at hd
      · rename_i q2 heq
        injection heq with heq
        subst heq
        split at hd
        · injection hd with hd
          exact ⟨q, d, hw, by assumption, hd.symm⟩
        · cases hd
      · rename_i heq
        cases heq

/-- Decomposition of the `DoFloodTile` event list into the hook segment,
the target dirty mark, and the post-flood segment. -/
theorem DoFloodTile_snd (g : Grid) (p : Pos) :
    (DoFloodTile g p).2 =
      (if (floodTileOutcome (g.get p)).2.1 then [Ev.floodVeh p] else []) ++
      (if (floodTileOutcome (g.get p)).1.isSome then [Ev.dirty p] else []) ++
      (if (floodTileOutcome (g.get p)).2.2 then
        MarkCanalsAndRiversAroundDirty (DoFloodTile g p).1 p ++
          [Ev.updateSignals, Ev.invalidRegion p]
       else []) := by
  rw [DoFloodTile_fst]
  unfold DoFloodTile
  cases hoc : (floodTileOutcome (g.get p)).2.2 <;> simp [hoc, List.append_assoc]

/-- Shape of the `DoFloodTile` event list: the vehicle hook and the dirty
mark for the target itself, the signal/region events, or a dirty mark for
a canal or river neighbour of the target. -/
theorem DoFloodTile_ev_cases {g : Grid} {p : Pos} {e : Ev}
    (h : e ∈ (DoFloodTile g p).2) :
    e = .floodVeh p ∨ e = .dirty p ∨ e = Ev.updateSignals ∨ e = .invalidRegion p ∨
      ∃ q, e = .dirty q ∧ q ≠ p ∧ isCanalOrRiver (g.get q) = true := by
  have hcanal : ∀ e2, e2 ∈ MarkCanalsAndRiversAroundDirty (DoFloodTile g p).1 p →
      ∃ q, e2 = .dirty q ∧ q ≠ p ∧ isCanalOrRiver (g.get q) = true := by
    intro e2 he2
    obtain ⟨q, d, hwq, hcr, he⟩ := mem_markCanals he2
    have hqp : q ≠ p := wrap_some_ne hwq
    refine ⟨q, he, hqp, ?_⟩
    rwa [DoFloodTile_get_ne hqp] at hcr
  rw [DoFloodTile_snd] at h
  rw [List.mem_append, List.mem_append] at h
  rcases h with (h | h) | h
  · split at h
    · rcases List.mem_singleton.mp h with rfl
      exact Or.inl rfl
    · cases h
  · split at h
    · rcases List.mem_singleton.mp h with rfl
      exact Or.inr (Or.inl rfl)
    · cases h
  · split at h
    · rw [List.mem_append] at h
      rcases h with h | h
      · exact Or.inr (Or.inr (Or.inr (Or.inr (hcanal e h))))
      · rcases List.mem_cons.mp h with rfl | h
        · exact Or.inr (Or.inr (Or.inl rfl))
        · rcases List.mem_singleton.mp h with rfl
          exact Or.inr (Or.inr (Or.inr (Or.inl rfl)))
    · cases h

theorem DoFloodTile_floodVeh_mem {g : Grid} {p q : Pos}
    (h : Ev.floodVeh q ∈ (DoFloodTile g p).2) : q = p := by
  rcases DoFloodTile_ev_cases h with h1 | h1 | h1 | h1 | ⟨r, h1, _, _⟩
  · cases h1; rfl
  · cases h1
  · cases h1
  · cases h1
  · cases h1

theorem DoFloodTile_dirty_mem {g : Grid} {p q : Pos} (hqp : q ≠ p)
    (h : Ev.dirty q ∈ (DoFloodTile g p).2) : isCanalOrRiver (g.get q) = true := by
  rcases DoFloodTile_ev_cases h with h1 | h1 | h1 | h1 | ⟨r, h1, hrp, hcr⟩
  · cases h1
  · cases h1; exact absurd rfl hqp
  · cases h1
  · cases h1
  · cases h1; exact hcr

/-! Lemmas about the per-direction scan decision. -/

theorem scanDir_some_red (g : Grid) (p r : Pos) (d : Direction)
    (hw : AddTileIndexDiffCWrap g p d = some r) :
    scanDir g p d =
      (if (g.get r).ttype == .void then ScanAction.skip
       else if (g.get r).ttype == .water then .skip
       else if (g.get r).ttype == .station && (g.get r).isBuoyOrDock then .skip
       else if (g.get r).ttype == .trees && (g.get r).treeGround == .shore then .mark
       else if 0 < (g.get r).foundHeight then .mark
       else if !((floodFromDirsTable (slopeIndex (g.get r).foundSlope)).contains (ReverseDir d))
         then .mark
       else .flood r) := by
  unfold scanDir
  rw [hw]

theorem scanDir_flood_spec {g : Grid} {p r : Pos} {d : Direction}
    (h : scanDir g p d = .flood r) :
    AddTileIndexDiffCWrap g p d = some r ∧ (g.get r).foundHeight = 0 ∧
      (g.get r).ttype ≠ .void ∧ (g.get r).ttype ≠ .water := by
  cases hw : AddTileIndexDiffCWrap g p d with
  | none =>
      unfold scanDir at h
      rw [hw] at h
      cases h
  | some q =>
      rw [scanDir_some_red g p q d hw] at h
      by_cases h1 : ((g.get q).ttype == TType.void) = true
      · rw [if_pos h1] at h; cases h
      rw [if_neg h1] at h
      by_cases h2 : ((g.get q).ttype == TType.water) = true
      · rw [if_pos h2] at h; cases h
      rw [if_neg h2] at h
      by_cases h3 : ((g.get q).ttype == TType.station && (g.get q).isBuoyOrDock) = true
      · rw [if_pos h3] at h; cases h
      rw [if_neg h3] at h
      by_cases h4 : ((g.get q).ttype == TType.trees &&
          (g.get q).treeGround == TreeGround.shore) = true
      · rw [if_pos h4] at h; cases h
      rw [if_neg h4] at h
      by_cases h5 : 0 < (g.get q).foundHeight
      · rw [if_pos h5] at h; cases h
      rw [if_neg h5] at h
      by_cases h6 : (!((floodFromDirsTable (slopeIndex (g.get q).foundSlope)).contains
          (ReverseDir d))) = true
      · rw [if_pos h6] at h; cases h
      rw [if_neg h6] at h
      injection h with h
      subst h
      refine ⟨rfl, by omega, ?_, ?_⟩
      · intro hv
        exact h1 (by rw [hv]; rfl)
      · intro hv
        exact h2 (by rw [hv]; rfl)

theorem scanDir_skip_iff (g : Grid) (p : Pos) (d : Direction) :
    scanDir g p d = .skip ↔
      ∀ q, AddTileIndexDiffCWrap g p d = some q →
        permanentlyUnfloodable (g.get q) = true := by
  cases hw : AddTileIndexDiffCWrap g p d with
  | none =>
      constructor
      · intro _ q hq
        cases hq
      · intro _
        unfold scanDir
        rw [hw]
  | some r =>
      rw [scanDir_some_red g p r d hw]
      constructor
      · intro h q hq
        cases hq
        unfold permanentlyUnfloodable
        by_cases h1 : ((g.get r).ttype == TType.void) = true
        · simp [h1]
        rw [if_neg h1] at h
        by_cases h2 : ((g.get r).ttype == TType.water) = true
        · simp [h2]
        rw [if_neg h2] at h
        by_cases h3 : ((g.get r).ttype == TType.station && (g.get r).isBuoyOrDock) = true
        · simp [h3]
        rw [if_neg h3] at h
        exfalso
        by_cases h4 : ((g.get r).ttype == TType.trees &&
            (g.get r).treeGround == TreeGround.shore) = true
        · rw [if_pos h4] at h; cases h
        rw [if_neg h4] at h
        by_cases h5 : 0 < (g.get r).foundHeight
        · rw [if_pos h5] at h; cases h
        rw [if_neg h5] at h
        by_cases h6 : (!((floodFromDirsTable (slopeIndex (g.get r).foundSlope)).contains
            (ReverseDir d))) = true
        · rw [if_pos h6] at h; cases h
        rw [if_neg h6] at h
        cases h
      · intro h
        have hr := h r rfl
        unfold permanentlyUnfloodable at hr
        by_cases h1 : ((g.get r).ttype == TType.void) = true
        · rw [if_pos h1]
        rw [if_neg h1]
        by_cases h2 : ((g.get r).ttype == TType.water) = true
        · rw [if_pos h2]
        rw [if_neg h2]
        by_cases h3 : ((g.get r).ttype == TType.station && (g.get r).isBuoyOrDock) = true
        · rw [if_pos h3]
        exfalso
        rw [Bool.not_eq_true] at h1 h2 h3
        rw [h1, h2, h3] at hr
        simp at hr

/-! Lemmas about the flood scan loop `floodScanAux`. -/

theorem floodScanAux_sizeX (p : Pos) (ds : List Direction) (g : Grid) (c : Bool) :
    (floodScanAux p ds g c).1.sizeX = g.sizeX := by
  induction ds generalizing g c with
  | nil => rfl
  | cons d ds ih =>
      rw [floodScanAux]
      cases hs : scanDir g p d with
      | skip => exact ih g c
      | mark => exact ih g true
      | flood r => exact (ih (DoFloodTile g r).1 true).trans (DoFloodTile_sizeX g r)

theorem floodScanAux_sizeY (p : Pos) (ds : List Direction) (g : Grid) (c : Bool) :
    (floodScanAux p ds g c).1.sizeY = g.sizeY := by
  induction ds generalizing g c with
  | nil => rfl
  | cons d ds ih =>
      rw [floodScanAux]
      cases hs : scanDir g p d with
      | skip => exact ih g c
      | mark => exact ih g true
      | flood r => exact (ih (DoFloodTile g r).1 true).trans (DoFloodTile_sizeY g r)

theorem floodScanAux_change {p : Pos} {ds : List Direction} {g : Grid} {c : Bool} {q : Pos}
    (h : (floodScanAux p ds g c).1.get q ≠ g.get q) :
    ∃ d, AddTileIndexDiffCWrap g p d = some q := by
  induction ds generalizing g c with
  | nil => exact absurd rfl h
  | cons d ds ih =>
      rw [floodScanAux] at h
      revert h
      cases hs : scanDir g p d with
      | skip => intro h; exact ih h
      | mark => intro h; exact ih h
      | flood r =>
          intro h
          by_cases hqr : q = r
          · subst hqr
            exact ⟨d, (scanDir_flood_spec hs).1⟩
          · have hfr : (DoFloodTile g r).1.get q = g.get q := DoFloodTile_get_ne hqr
            have h2 : (floodScanAux p ds (DoFloodTile g r).1 true).1.get q ≠
                (DoFloodTile g r).1.get q := by
              intro he
              exact h (he.trans hfr)
            obtain ⟨d2, hd2⟩ := ih h2
            refine ⟨d2, ?_⟩
            rw [← wrap_congr (DoFloodTile_sizeX g r) (DoFloodTile_sizeY g r) p d2]
            exact hd2

theorem floodScanAux_get_p (p : Pos) (ds : List Direction) (g : Grid) (c : Bool) :
    (floodScanAux p ds g c).1.get p = g.get p := by
  by_contra h
  obtain ⟨d, hd⟩ := floodScanAux_change h
  exact wrap_some_ne hd rfl

theorem floodScanAux_elevated {p q : Pos} (ds : List Direction) (g : Grid) (c : Bool)
    (hq : (g.get q).foundHeight ≠ 0) :
    (floodScanAux p ds g c).1.get q = g.get q ∧
    Ev.floodVeh q ∉ (floodScanAux p ds g c).2.1 ∧
    (Ev.dirty q ∈ (floodScanAux p ds g c).2.1 → isCanalOrRiver (g.get q) = true) := by
  induction ds generalizing g c with
  | nil =>
      refine ⟨rfl, ?_, ?_⟩
      · intro hm; cases hm
      · intro hm; cases hm
  | cons d ds ih =>
      rw [floodScanAux]
      cases hs : scanDir g p d with
      | skip => exact ih g c hq
      | mark => exact ih g true hq
      | flood r =>
          obtain ⟨hwr, hzr, -, -⟩ := scanDir_flood_spec hs
          have hqr : q ≠ r := by
            intro he
            rw [he] at hq
            exact hq hzr
          have hfr : (DoFloodTile g r).1.get q = g.get q := DoFloodTile_get_ne hqr
          have ih2 := ih (DoFloodTile g r).1 true (by rw [hfr]; exact hq)
          refine ⟨ih2.1.trans hfr, ?_, ?_⟩
          · intro hm
            rcases List.mem_append.mp hm with hm | hm
            · exact hqr (DoFloodTile_floodVeh_mem hm)
            · exact ih2.2.1 hm
          · intro hm
            rcases List.mem_append.mp hm with hm | hm
            · exact DoFloodTile_dirty_mem hqr hm
            · rw [← hfr]
              exact ih2.2.2 hm

theorem floodScanAux_cont_true (p : Pos) (ds : List Direction) (g : Grid) :
    (floodScanAux p ds g true).2.2 = true := by
  induction ds generalizing g with
  | nil => rfl
  | cons d ds ih =>
      rw [floodScanAux]
      cases hs : scanDir g p d with
      | skip => exact ih g
      | mark => exact ih g
      | flood r => exact ih (DoFloodTile g r).1

theorem floodScanAux_cont_false {p : Pos} {ds : List Direction} {g : Grid} {c : Bool}
    (h : (floodScanAux p ds g c).2.2 = false) :
    c = false ∧ floodScanAux p ds g c = (g, [], false) ∧
      ∀ d ∈ ds, scanDir g p d = .skip := by
  induction ds generalizing g c with
  | nil =>
      have hc : c = false := h
      subst hc
      exact ⟨rfl, rfl, by intro d hd; cases hd⟩
  | cons d ds ih =>
      rw [floodScanAux] at h ⊢
      revert h
      cases hs : scanDir g p d with
      | skip =>
          intro h
          obtain ⟨hc, heq, hall⟩ := ih h
          refine ⟨hc, heq, ?_⟩
          intro d2 hd2
          rcases List.mem_cons.mp hd2 with rfl | hd2
          · exact hs
          · exact hall d2 hd2
      | mark =>
          intro h
          cases (floodScanAux_cont_true p ds g).symm.trans h
      | flood r =>
          intro h
          cases (floodScanAux_cont_true p ds (DoFloodTile g r).1).symm.trans h

theorem floodScanAux_all_skip {p : Pos} {ds : List Direction} {g : Grid} (c : Bool)
    (h : ∀ d ∈ ds, scanDir g p d = .skip) :
    floodScanAux p ds g c = (g, [], c) := by
  induction ds with
  | nil => rfl
  | cons d ds ih =>
      rw [floodScanAux, h d (List.mem_cons_self d ds)]
      exact ih (fun d2 hd2 => h d2 (List.mem_cons_of_mem d hd2))

/-! Lemmas about cache clearing and `DoDryUp`. -/

theorem clearNFStep_sizeX (p : Pos) (d : Direction) (g : Grid) :
    (clearNFStep p d g).sizeX = g.sizeX := by
  unfold clearNFStep
  cases hw : AddTileIndexDiffCWrap g p d with
  | none => rfl
  | some r =>
      show (if (g.get r).ttype == TType.water then
          g.set r { g.get r with nonFlooding := false } else g).sizeX = g.sizeX
      split <;> rfl

theorem clearNFStep_sizeY (p : Pos) (d : Direction) (g : Grid) :
    (clearNFStep p d g).sizeY = g.sizeY := by
  unfold clearNFStep
  cases hw : AddTileIndexDiffCWrap g p d with
  | none => rfl
  | some r =>
      show (if (g.get r).ttype == TType.water then
          g.set r { g.get r with nonFlooding := false } else g).sizeY = g.sizeY
      split <;> rfl

theorem clearNFStep_change {p : Pos} {d : Direction} {g : Grid} {q : Pos}
    (h : (clearNFStep p d g).get q ≠ g.get q) :
    AddTileIndexDiffCWrap g p d = some q := by
  unfold clearNFStep at h
  revert h
  cases hw : AddTileIndexDiffCWrap g p d with
  | none => intro h; exact absurd rfl h
  | some r =>
      intro h
      by_cases hqr : q = r
      · subst hqr; rfl
      · exfalso
        apply h
        show (if (g.get r).ttype == TType.water then
            g.set r { g.get r with nonFlooding := false } else g).get q = g.get q
        split
        · exact Grid.get_set_ne hqr
        · rfl

theorem clearNFAux_change {p : Pos} {ds : List Direction} {g : Grid} {q : Pos}
    (h : (clearNFAux p ds g).get q ≠ g.get q) :
    ∃ d, AddTileIndexDiffCWrap g p d = some q := by
  induction ds generalizing g with
  | nil => exact absurd rfl h
  | cons d ds ih =>
      rw [clearNFAux] at h
      by_cases hstep : (clearNFStep p d g).get q = g.get q
      · have h2 : (clearNFAux p ds (clearNFStep p d g)).get q ≠ (clearNFStep p d g).get q := by
          intro he
          exact h (he.trans hstep)
        obtain ⟨d2, hd2⟩ := ih h2
        refine ⟨d2, ?_⟩
        rw [← wrap_congr (clearNFStep_sizeX p d g) (clearNFStep_sizeY p d g) p d2]
        exact hd2
      · exact ⟨d, clearNFStep_change hstep⟩

theorem clearNFAux_get_p (p : Pos) (ds : List Direction) (g : Grid) :
    (clearNFAux p ds g).get p = g.get p := by
  by_contra h
  obtain ⟨d, hd⟩ := clearNFAux_change h
  exact wrap_some_ne hd rfl

theorem DoDryUp_change {g : Grid} {p q : Pos} (hqp : q ≠ p)
    (h : (DoDryUp g p).1.get q ≠ g.get q) :
    ∃ d, AddTileIndexDiffCWrap g p d = some q := by
  unfold DoDryUp at h
  revert h
  cases htt : (g.get p).ttype <;> intro h
  case railway => exact absurd (Grid.get_set_ne hqp) h
  case trees => exact absurd (Grid.get_set_ne hqp) h
  case water =>
      have h2 : ((if (g.get p).clearOk then
            (ClearNeighbourNonFloodingStates (g.set p (MakeClearGrass (g.get p))) p,
              MarkCanalsAndRiversAroundDirty (g.set p (MakeClearGrass (g.get p))) p ++
                [Ev.dirty p])
          else (g, [])) : Grid × List Ev).1.get q ≠ g.get q := h
      by_cases hck : (g.get p).clearOk = true
      · rw [if_pos hck] at h2
        have hfr : (g.set p (MakeClearGrass (g.get p))).get q = g.get q :=
          Grid.get_set_ne hqp
        have h3 : (ClearNeighbourNonFloodingStates
              (g.set p (MakeClearGrass (g.get p))) p).get q ≠
            (g.set p (MakeClearGrass (g.get p))).get q := by
          intro he
          exact h2 (he.trans hfr)
        obtain ⟨d2, hd2⟩ := clearNFAux_change h3
        exact ⟨d2, hd2⟩
      · rw [if_neg hck] at h2
        exact absurd rfl h2
  all_goals exact absurd rfl h

/-! Further helper lemmas used by the claim theorems. -/

theorem TileLoop_not_fast {g : Grid} {p : Pos}
    (hnf : (g.get p).nonFlooding = false) :
    TileLoop_Water g p =
      match GetFloodingBehaviour (g.get p) with
      | .active =>
          let r := floodScanAux p allDirections g false
          if !r.2.2 && (r.1.get p).ttype == .water then
            (r.1.set p { r.1.get p with nonFlooding := true }, r.2.1)
          else (r.1, r.2.1)
      | .dryup =>
          if (floodFromDirsTable (slopeIndex (g.get p).foundSlope)).any (fun d =>
              match AddTileIndexDiffCWrap g p d with
              | Option.none => false
              | some q =>
                  GetFloodingBehaviour (g.get q) == .active ||
                  GetFloodingBehaviour (g.get q) == .passive) then
            (g, [])
          else DoDryUp g p
      | _ => (g, []) := by
  have hx : ¬(((g.get p).ttype == TType.water && (g.get p).nonFlooding) = true) := by
    rw [hnf, Bool.and_false]
    exact Bool.false_ne_true
  unfold TileLoop_Water
  rw [if_neg hx]

theorem DoFloodTile_get_of_outcome {g : Grid} {p : Pos} {t2 : TileData}
    (hb : g.inBounds p = true)
    (hoc : (floodTileOutcome (g.get p)).1 = some t2) :
    (DoFloodTile g p).1.get p = t2 := by
  rw [DoFloodTile_fst, hoc]
  exact Grid.get_set_self hb

theorem DoFloodTile_floodVeh_iff (g : Grid) (p : Pos) :
    Ev.floodVeh p ∈ (DoFloodTile g p).2 ↔ (floodTileOutcome (g.get p)).2.1 = true := by
  rw [DoFloodTile_snd]
  cases hfv : (floodTileOutcome (g.get p)).2.1 with
  | true => simp
  | false =>
      rw [if_neg Bool.false_ne_true, List.nil_append]
      constructor
      · intro h
        exfalso
        rcases List.mem_append.mp h with h | h
        · revert h
          split
          · intro h
            cases List.mem_singleton.mp h
          · intro h
            cases h
        · revert h
          split
          · intro h
            rcases List.mem_append.mp h with h | h
            · obtain ⟨q, d, _, _, he⟩ := mem_markCanals h
              cases he
            · rcases List.mem_cons.mp h with he | h
              · cases he
              · cases List.mem_singleton.mp h
          · intro h
            cases h
      · intro h
        cases h

theorem floodTileOutcome_hook (t : TileData) :
    (floodTileOutcome t).2.1 = true ↔
      (t.slope = SLOPE_FLAT ∨ (t.ttype = .railway ∧ t.isPlainRail = true)) := by
  obtain ⟨tt, wt, wc, bd, pr, rg, tb, tg, td, sl, ht, fs, fh, ck, nf⟩ := t
  by_cases hs : sl = SLOPE_FLAT
  · by_cases hck : ck = true
    · simp [floodTileOutcome, hs, hck]
    · simp [floodTileOutcome, hs, hck]
  · cases tt with
    | railway =>
        by_cases hpr : pr = true
        · simp [floodTileOutcome, hs, hpr]
        · simp [floodTileOutcome, hs, hpr]
    | trees =>
        by_cases h1 : IsSlopeWithOneCornerRaised sl = true
        · by_cases hck : ck = true
          · simp [floodTileOutcome, hs, h1, hck]
          · simp [floodTileOutcome, hs, h1, hck]
        · simp [floodTileOutcome, hs, h1]
    | clear =>
        by_cases hck : ck = true
        · simp [floodTileOutcome, hs, hck]
        · simp [floodTileOutcome, hs, hck]
    | water => simp [floodTileOutcome, hs]
    | station => simp [floodTileOutcome, hs]
    | industry => simp [floodTileOutcome, hs]
    | object => simp [floodTileOutcome, hs]
    | void => simp [floodTileOutcome, hs]
    | house => simp [floodTileOutcome, hs]

/-! Claim theorems. -/

/-- C1: for every tile, the flood-behaviour classifier
`GetFloodingBehaviour` returns exactly the spec's case table
(`specClassify`: void → Active; coast → Active with exactly one raised
corner, else DryUp; water/station/industry/object → Active when the water
class is sea, else None; rail with water ground → Active with one raised
corner, else DryUp; trees on shore ground → DryUp; everything else →
None), and the Passive classification is never returned. -/
theorem c1_classifier_table :
    ∀ t : TileData, GetFloodingBehaviour t = specClassify t ∧
      GetFloodingBehaviour t ≠ .passive := by
  intro t
  obtain ⟨tt, wt, wc, bd, pr, rg, tb, tg, td, sl, ht, fs, fh, ck, nf⟩ := t
  have hsl : ∀ a b : FloodingBehaviour, a ≠ .passive → b ≠ .passive →
      (if IsSlopeWithOneCornerRaised sl then a else b) ≠ .passive := by
    intro a b ha hb
    split
    · exact ha
    · exact hb
  cases tt with
  | water =>
      cases wt with
      | coast => exact ⟨rfl, hsl _ _ (by decide) (by decide)⟩
      | clear => cases wc <;> exact ⟨rfl, by simp [GetFloodingBehaviour]⟩
      | lock => cases wc <;> exact ⟨rfl, by simp [GetFloodingBehaviour]⟩
      | depot => cases wc <;> exact ⟨rfl, by simp [GetFloodingBehaviour]⟩
  | station => cases wc <;> exact ⟨rfl, by simp [GetFloodingBehaviour]⟩
  | industry => cases wc <;> exact ⟨rfl, by simp [GetFloodingBehaviour]⟩
  | object => cases wc <;> exact ⟨rfl, by simp [GetFloodingBehaviour]⟩
  | railway =>
      cases rg with
      | water => exact ⟨rfl, hsl _ _ (by decide) (by decide)⟩
      | grass => exact ⟨rfl, by simp [GetFloodingBehaviour]⟩
      | fenceHoriz1 => exact ⟨rfl, by simp [GetFloodingBehaviour]⟩
      | fenceHoriz2 => exact ⟨rfl, by simp [GetFloodingBehaviour]⟩
      | fenceVert1 => exact ⟨rfl, by simp [GetFloodingBehaviour]⟩
      | fenceVert2 => exact ⟨rfl, by simp [GetFloodingBehaviour]⟩
  | trees => cases tg <;> exact ⟨rfl, by simp [GetFloodingBehaviour]⟩
  | clear => exact ⟨rfl, by simp [GetFloodingBehaviour]⟩
  | void => exact ⟨rfl, by simp [GetFloodingBehaviour]⟩
  | house => exact ⟨rfl, by simp [GetFloodingBehaviour]⟩

/-- C3: when `DoFloodTile` converts an eligible clear-land tile (the
landscape-clear command succeeds), the tile becomes a coast tile if its
slope is not flat and becomes open sea water directly — never passing
through coast — if its slope is flat. -/
theorem c3_clear_flood_shape (g : Grid) (p : Pos)
    (ht : (g.get p).ttype = .clear) (hz : (g.get p).foundHeight = 0)
    (hck : (g.get p).clearOk = true) :
    ((g.get p).slope ≠ SLOPE_FLAT →
        ((DoFloodTile g p).1.get p).ttype = .water ∧
        ((DoFloodTile g p).1.get p).wtype = .coast) ∧
    ((g.get p).slope = SLOPE_FLAT →
        ((DoFloodTile g p).1.get p).ttype = .water ∧
        ((DoFloodTile g p).1.get p).wtype = .clear ∧
        ((DoFloodTile g p).1.get p).wclass = .sea) := by
  have hb : g.inBounds p = true := inBounds_of_ttype (by rw [ht]; intro hv; cases hv)
  constructor
  · intro hs
    have hoc : (floodTileOutcome (g.get p)).1 = some (MakeShore (g.get p)) := by
      unfold floodTileOutcome
      rw [if_pos hs, ht]
      simp [hck]
    rw [DoFloodTile_get_of_outcome hb hoc]
    exact ⟨rfl, rfl⟩
  · intro hs
    have hoc : (floodTileOutcome (g.get p)).1 = some (MakeSea (g.get p)) := by
      unfold floodTileOutcome
      rw [if_neg (by simpa using hs)]
      simp [hck]
    rw [DoFloodTile_get_of_outcome hb hoc]
    exact ⟨rfl, rfl, rfl⟩

/-- C6 (amended): the vehicle flood hook is invoked by `DoFloodTile`
exactly when the target's slope is flat (before the sea conversion, even
when the conversion then fails) or the target is plain rail on a non-flat
slope (before the halftile flood); sloped clear→coast and tree→shore
conversions do not invoke it. -/
theorem c6_hook_invocation (g : Grid) (p : Pos) (ht : (g.get p).ttype ≠ .water) :
    (Ev.floodVeh p ∈ (DoFloodTile g p).2 ↔
      ((g.get p).slope = SLOPE_FLAT ∨
        ((g.get p).ttype = .railway ∧ (g.get p).isPlainRail = true))) :=
  (DoFloodTile_floodVeh_iff g p).trans (floodTileOutcome_hook (g.get p))

/-- C9 (amended): when flooding reaches a tree tile, the tile is only
marked with the shore ground tag (type unchanged) when its slope is
non-flat without exactly one raised corner; a tree tile with exactly one
raised corner is converted to coast, and a flat tree tile is converted to
open sea water. -/
theorem c9_trees_flood_cases (g : Grid) (p : Pos) (ht : (g.get p).ttype = .trees) :
    (((g.get p).slope ≠ SLOPE_FLAT ∧ IsSlopeWithOneCornerRaised (g.get p).slope = false) →
        (DoFloodTile g p).1.get p =
          { g.get p with treeGround := .shore, treeDensity := 3 }) ∧
    (((g.get p).slope ≠ SLOPE_FLAT ∧ IsSlopeWithOneCornerRaised (g.get p).slope = true ∧
        (g.get p).clearOk = true) →
        ((DoFloodTile g p).1.get p).ttype = .water ∧
        ((DoFloodTile g p).1.get p).wtype = .coast) ∧
    (((g.get p).slope = SLOPE_FLAT ∧ (g.get p).clearOk = true) →
        ((DoFloodTile g p).1.get p).ttype = .water ∧
        ((DoFloodTile g p).1.get p).wtype = .clear) := by
  have hb : g.inBounds p = true := inBounds_of_ttype (by rw [ht]; intro hv; cases hv)
  refine ⟨?_, ?_, ?_⟩
  · rintro ⟨hs, h1⟩
    have hoc : (floodTileOutcome (g.get p)).1 =
        some { g.get p with treeGround := .shore, treeDensity := 3 } := by
      unfold floodTileOutcome
      rw [if_pos hs, ht]
      simp [h1]
      exact ht.symm
    exact DoFloodTile_get_of_outcome hb hoc
  · rintro ⟨hs, h1, hck⟩
    have hoc : (floodTileOutcome (g.get p)).1 = some (MakeShore (g.get p)) := by
      unfold floodTileOutcome
      rw [if_pos hs, ht]
      simp [h1, hck]
    rw [DoFloodTile_get_of_outcome hb hoc]
    exact ⟨rfl, rfl⟩
  · rintro ⟨hs, hck⟩
    have hoc : (floodTileOutcome (g.get p)).1 = some (MakeSea (g.get p)) := by
      unfold floodTileOutcome
      rw [if_neg (by simpa using hs)]
      simp [hck]
    rw [DoFloodTile_get_of_outcome hb hoc]
    exact ⟨rfl, rfl⟩

/-- C10: dry-up of a coast tile is atomic with respect to failure:
`DoDryUp` converts the coast to plain clear land only when the internal
landscape-clear operation succeeds (no vehicle on the tile); when it
fails, the grid is entirely unchanged and no event is emitted. -/
theorem c10_dryup_coast_atomic (g : Grid) (p : Pos)
    (ht : (g.get p).ttype = .water) (hw : (g.get p).wtype = .coast) :
    ((g.get p).clearOk = false → DoDryUp g p = (g, [])) ∧
    ((g.get p).clearOk = true →
      ((DoDryUp g p).1.get p).ttype = .clear ∧ Ev.dirty p ∈ (DoDryUp g p).2) := by
  have hb : g.inBounds p = true := inBounds_of_ttype (by rw [ht]; intro hv; cases hv)
  have hred : DoDryUp g p =
      (if (g.get p).clearOk then
        (ClearNeighbourNonFloodingStates (g.set p (MakeClearGrass (g.get p))) p,
          MarkCanalsAndRiversAroundDirty (g.set p (MakeClearGrass (g.get p))) p ++
            [Ev.dirty p])
      else (g, [])) := by
    unfold DoDryUp
    rw [ht]
  constructor
  · intro hck
    rw [hred, if_neg (by rw [hck]; exact Bool.false_ne_true)]
  · intro hck
    rw [hred, if_pos hck]
    constructor
    · have h1 : (ClearNeighbourNonFloodingStates
          (g.set p (MakeClearGrass (g.get p))) p).get p =
          (g.set p (MakeClearGrass (g.get p))).get p := clearNFAux_get_p p allDirections _
      show ((ClearNeighbourNonFloodingStates
          (g.set p (MakeClearGrass (g.get p))) p).get p).ttype = TType.clear
      rw [h1, Grid.get_set_self hb]
      rfl
    · exact List.mem_append.mpr (Or.inr (List.mem_singleton.mpr rfl))

/-! Reduction helpers for `TileLoop_Water`. -/

theorem TileLoop_fast {g : Grid} {p : Pos}
    (hx : ((g.get p).ttype == TType.water && (g.get p).nonFlooding) = true) :
    TileLoop_Water g p = (g, []) := by
  unfold TileLoop_Water
  rw [if_pos hx]

theorem TileLoop_active_red {g : Grid} {p : Pos}
    (hx : ((g.get p).ttype == TType.water && (g.get p).nonFlooding) = false)
    (hcls : GetFloodingBehaviour (g.get p) = .active) :
    TileLoop_Water g p =
      (if !(floodScanAux p allDirections g false).2.2 &&
          ((floodScanAux p allDirections g false).1.get p).ttype == TType.water then
        ((floodScanAux p allDirections g false).1.set p
          { (floodScanAux p allDirections g false).1.get p with nonFlooding := true },
          (floodScanAux p allDirections g false).2.1)
      else ((floodScanAux p allDirections g false).1,
        (floodScanAux p allDirections g false).2.1)) := by
  unfold TileLoop_Water
  rw [if_neg (by rw [hx]; exact Bool.false_ne_true), hcls]

theorem TileLoop_dryup_red {g : Grid} {p : Pos}
    (hx : ((g.get p).ttype == TType.water && (g.get p).nonFlooding) = false)
    (hcls : GetFloodingBehaviour (g.get p) = .dryup) :
    TileLoop_Water g p =
      (if (floodFromDirsTable (slopeIndex (g.get p).foundSlope)).any (fun d =>
          match AddTileIndexDiffCWrap g p d with
          | Option.none => false
          | some q =>
              GetFloodingBehaviour (g.get q) == .active ||
              GetFloodingBehaviour (g.get q) == .passive) then
        (g, [])
      else DoDryUp g p) := by
  unfold TileLoop_Water
  rw [if_neg (by rw [hx]; exact Bool.false_ne_true), hcls]

theorem TileLoop_passive_red {g : Grid} {p : Pos}
    (hx : ((g.get p).ttype == TType.water && (g.get p).nonFlooding) = false)
    (hcls : GetFloodingBehaviour (g.get p) = .passive) :
    TileLoop_Water g p = (g, []) := by
  unfold TileLoop_Water
  rw [if_neg (by rw [hx]; exact Bool.false_ne_true), hcls]

theorem TileLoop_none_red {g : Grid} {p : Pos}
    (hx : ((g.get p).ttype == TType.water && (g.get p).nonFlooding) = false)
    (hcls : GetFloodingBehaviour (g.get p) = .none) :
    TileLoop_Water g p = (g, []) := by
  unfold TileLoop_Water
  rw [if_neg (by rw [hx]; exact Bool.false_ne_true), hcls]

theorem TileLoop_active_quiet {g : Grid} {p : Pos}
    (hx : ((g.get p).ttype == TType.water && (g.get p).nonFlooding) = false)
    (hcls : GetFloodingBehaviour (g.get p) = .active)
    (ht : (g.get p).ttype = TType.water)
    (hskip : ∀ d ∈ allDirections, scanDir g p d = .skip) :
    TileLoop_Water g p = (g.set p { g.get p with nonFlooding := true }, []) := by
  rw [TileLoop_active_red hx hcls, floodScanAux_all_skip false hskip]
  simp [ht]

/-- C2 (amended): during a flood-propagator invocation on an Active cell,
a neighbour whose foundation-adjusted elevation is nonzero is never
converted and never has the vehicle flood hook invoked for it; a redraw
can be emitted for such a neighbour only when it is a canal or river tile
(the glitch-avoidance dirty marking around a converted target). -/
theorem c2_elevated_neighbour_safe (g : Grid) (p : Pos) (d : Direction) (q : Pos)
    (hcls : GetFloodingBehaviour (g.get p) = .active)
    (hq : AddTileIndexDiffCWrap g p d = some q)
    (hz : (g.get q).foundHeight ≠ 0) :
    (TileLoop_Water g p).1.get q = g.get q ∧
    Ev.floodVeh q ∉ (TileLoop_Water g p).2 ∧
    (Ev.dirty q ∈ (TileLoop_Water g p).2 → isCanalOrRiver (g.get q) = true) := by
  have hqp : q ≠ p := wrap_some_ne hq
  by_cases hfast : ((g.get p).ttype == TType.water && (g.get p).nonFlooding) = true
  · rw [TileLoop_fast hfast]
    refine ⟨rfl, ?_, ?_⟩
    · intro hm
      cases hm
    · intro hm
      cases hm
  · rw [Bool.not_eq_true] at hfast
    rw [TileLoop_active_red hfast hcls]
    have hmain := floodScanAux_elevated (p := p) (q := q) allDirections g false hz
    split
    · refine ⟨?_, hmain.2.1, hmain.2.2⟩
      show ((floodScanAux p allDirections g false).1.set p
        { (floodScanAux p allDirections g false).1.get p with nonFlooding := true }).get q =
        g.get q
      rw [Grid.get_set_ne hqp]
      exact hmain.1
    · exact hmain

/-- C4 (amended): a `TileLoop_Water` invocation only ever mutates the
processed cell itself or one of its eight compass neighbours — including
the four corner-touching neighbours reached through the cardinal
directions, which the scan does inspect and can convert. -/
theorem c4_changes_within_neighbourhood (g : Grid) (p q : Pos)
    (h : (TileLoop_Water g p).1.get q ≠ g.get q) :
    q = p ∨ ∃ d, AddTileIndexDiffCWrap g p d = some q := by
  by_cases hqp : q = p
  · exact Or.inl hqp
  right
  by_cases hfast : ((g.get p).ttype == TType.water && (g.get p).nonFlooding) = true
  · rw [TileLoop_fast hfast] at h
    exact absurd rfl h
  rw [Bool.not_eq_true] at hfast
  cases hcls : GetFloodingBehaviour (g.get p) with
  | active =>
      rw [TileLoop_active_red hfast hcls] at h
      revert h
      split
      · intro h
        have h2 : ((floodScanAux p allDirections g false).1.set p
            { (floodScanAux p allDirections g false).1.get p with
                nonFlooding := true }).get q ≠ g.get q := h
        rw [Grid.get_set_ne hqp] at h2
        exact floodScanAux_change h2
      · intro h
        exact floodScanAux_change h
  | dryup =>
      rw [TileLoop_dryup_red hfast hcls] at h
      revert h
      split
      · intro h
        exact absurd rfl h
      · intro h
        exact DoDryUp_change hqp h
  | passive =>
      rw [TileLoop_passive_red hfast hcls] at h
      exact absurd rfl h
  | none =>
      rw [TileLoop_none_red hfast hcls] at h
      exact absurd rfl h

/-- C5 (amended): a DryUp cell is reverted one step toward dry land if and
only if no in-map neighbour in its slope's direction set classifies Active
or Passive and — for coast — the landscape-clear command succeeds; on-map
void neighbours classify Active and therefore block drying, but
coordinates outside the map are skipped by the scan and do not block. -/
theorem c5_dryup_characterisation (g : Grid) (p : Pos)
    (hcls : GetFloodingBehaviour (g.get p) = .dryup)
    (hnf : (g.get p).nonFlooding = false) :
    ((floodFromDirsTable (slopeIndex (g.get p).foundSlope)).any (fun d =>
        match AddTileIndexDiffCWrap g p d with
        | Option.none => false
        | some q =>
            GetFloodingBehaviour (g.get q) == .active ||
            GetFloodingBehaviour (g.get q) == .passive) = true →
      TileLoop_Water g p = (g, [])) ∧
    ((floodFromDirsTable (slopeIndex (g.get p).foundSlope)).any (fun d =>
        match AddTileIndexDiffCWrap g p d with
        | Option.none => false
        | some q =>
            GetFloodingBehaviour (g.get q) == .active ||
            GetFloodingBehaviour (g.get q) == .passive) = false →
      (((g.get p).ttype = .railway →
          (TileLoop_Water g p).1.get p =
            { g.get p with
                railGround := dryUpRailGround (g.get p).trackBits (g.get p).railGround } ∧
          Ev.dirty p ∈ (TileLoop_Water g p).2) ∧
       ((g.get p).ttype = .trees →
          (TileLoop_Water g p).1.get p =
            { g.get p with treeGround := .grass, treeDensity := 3 }) ∧
       ((g.get p).ttype = .water →
          ((g.get p).clearOk = true → ((TileLoop_Water g p).1.get p).ttype = .clear) ∧
          ((g.get p).clearOk = false → TileLoop_Water g p = (g, []))))) := by
  have hx : ((g.get p).ttype == TType.water && (g.get p).nonFlooding) = false := by
    rw [hnf, Bool.and_false]
  have hred := TileLoop_dryup_red hx hcls
  constructor
  · intro hblk
    rw [hred, if_pos hblk]
  · intro hblk
    rw [hred, if_neg (by rw [hblk]; exact Bool.false_ne_true)]
    refine ⟨?_, ?_, ?_⟩
    · intro htt
      have hb : g.inBounds p = true := inBounds_of_ttype (by rw [htt]; intro hv; cases hv)
      have hdr : DoDryUp g p =
          (g.set p { g.get p with
              railGround := dryUpRailGround (g.get p).trackBits (g.get p).railGround },
            [Ev.dirty p]) := by
        unfold DoDryUp
        rw [htt]
      rw [hdr]
      exact ⟨Grid.get_set_self hb, List.mem_singleton.mpr rfl⟩
    · intro htt
      have hb : g.inBounds p = true := inBounds_of_ttype (by rw [htt]; intro hv; cases hv)
      have hdr : DoDryUp g p =
          (g.set p { g.get p with treeGround := .grass, treeDensity := 3 },
            [Ev.dirty p]) := by
        unfold DoDryUp
        rw [htt]
      rw [hdr]
      exact Grid.get_set_self hb
    · intro htt
      have hb : g.inBounds p = true := inBounds_of_ttype (by rw [htt]; intro hv; cases hv)
      have hdr : DoDryUp g p =
          (if (g.get p).clearOk then
            (ClearNeighbourNonFloodingStates (g.set p (MakeClearGrass (g.get p))) p,
              MarkCanalsAndRiversAroundDirty (g.set p (MakeClearGrass (g.get p))) p ++
                [Ev.dirty p])
          else (g, [])) := by
        unfold DoDryUp
        rw [htt]
      constructor
      · intro hck
        rw [hdr, if_pos hck]
        have h1 : (ClearNeighbourNonFloodingStates
            (g.set p (MakeClearGrass (g.get p))) p).get p =
            (g.set p (MakeClearGrass (g.get p))).get p := clearNFAux_get_p p allDirections _
        show ((ClearNeighbourNonFloodingStates
            (g.set p (MakeClearGrass (g.get p))) p).get p).ttype = TType.clear
        rw [h1, Grid.get_set_self hb]
        rfl
      · intro hck
        rw [hdr, if_neg (by rw [hck]; exact Bool.false_ne_true)]

/-- C7: for a sea tile all of whose neighbours are water tiles, the first
`TileLoop_Water` call leaves every tile unchanged apart from setting the
source's quiescence cache and emits no event, and a second consecutive
call takes the fast path, leaving the grid identical (with the cache still
set) and emitting nothing. -/
theorem c7_sea_idempotent (g : Grid) (p : Pos)
    (ht : (g.get p).ttype = .water) (hwt : (g.get p).wtype = .clear)
    (hwc : (g.get p).wclass = .sea) (hnf : (g.get p).nonFlooding = false)
    (hnbr : (allDirections.all (fun d =>
        match AddTileIndexDiffCWrap g p d with
        | some q => (g.get q).ttype == TType.water
        | Option.none => true)) = true) :
    (∀ q2, (TileLoop_Water g p).1.get q2 =
        if q2 = p then { g.get p with nonFlooding := true } else g.get q2) ∧
    (TileLoop_Water g p).2 = [] ∧
    TileLoop_Water (TileLoop_Water g p).1 p = ((TileLoop_Water g p).1, []) := by
  have hb : g.inBounds p = true := inBounds_of_ttype (by rw [ht]; intro hv; cases hv)
  have hcls : GetFloodingBehaviour (g.get p) = .active := by
    unfold GetFloodingBehaviour
    rw [ht]
    simp [hwt, hwc]
  have hx : ((g.get p).ttype == TType.water && (g.get p).nonFlooding) = false := by
    rw [hnf, Bool.and_false]
  have hskip : ∀ d ∈ allDirections, scanDir g p d = .skip := by
    intro d hd
    rw [scanDir_skip_iff]
    intro q hq
    have hqw := List.all_eq_true.mp hnbr d hd
    rw [hq] at hqw
    have hqw2 : ((g.get q).ttype == TType.water) = true := hqw
    rw [beq_iff_eq] at hqw2
    unfold permanentlyUnfloodable
    rw [hqw2]
    rfl
  have hres := TileLoop_active_quiet hx hcls ht hskip
  refine ⟨?_, ?_, ?_⟩
  · intro q2
    rw [hres]
    by_cases hq2 : q2 = p
    · rw [if_pos hq2, hq2]
      exact Grid.get_set_self hb
    · rw [if_neg hq2]
      exact Grid.get_set_ne hq2
  · rw [hres]
  · rw [hres]
    have hfast2 : (((g.set p { g.get p with nonFlooding := true }).get p).ttype ==
        TType.water &&
        ((g.set p { g.get p with nonFlooding := true }).get p).nonFlooding) = true := by
      rw [Grid.get_set_self hb]
      simp [ht]
    exact TileLoop_fast hfast2

/-- C8 (amended): for a water-typed Active source with a clear cache, the
quiescence cache is set by the end of the call if and only if every
scanned neighbour is permanently unfloodable (out of the map, void, water,
or a buoy/dock station); a neighbour that merely fails a later eligibility
check (shore trees, raised ground, the slope gate) prevents the cache from
being set even though no conversion happens. -/
theorem c8_cache_characterisation (g : Grid) (p : Pos)
    (ht : (g.get p).ttype = .water) (hnf : (g.get p).nonFlooding = false)
    (hcls : GetFloodingBehaviour (g.get p) = .active) :
    (((TileLoop_Water g p).1.get p).nonFlooding = true ↔
      (allDirections.all (fun d =>
        match AddTileIndexDiffCWrap g p d with
        | some q => permanentlyUnfloodable (g.get q)
        | Option.none => true)) = true) := by
  have hb : g.inBounds p = true := inBounds_of_ttype (by rw [ht]; intro hv; cases hv)
  have hx : ((g.get p).ttype == TType.water && (g.get p).nonFlooding) = false := by
    rw [hnf, Bool.and_false]
  have hbridge : (allDirections.all (fun d =>
      match AddTileIndexDiffCWrap g p d with
      | some q => permanentlyUnfloodable (g.get q)
      | Option.none => true)) = true ↔
      ∀ d ∈ allDirections, scanDir g p d = .skip := by
    rw [List.all_eq_true]
    constructor
    · intro hall d hd
      rw [scanDir_skip_iff]
      intro q hq
      have h2 := hall d hd
      rw [hq] at h2
      exact h2
    · intro hall d hd
      cases hw : AddTileIndexDiffCWrap g p d with
      | none => rfl
      | some q => exact (scanDir_skip_iff g p d).mp (hall d hd) q hw
  rw [hbridge]
  constructor
  · intro hset
    cases hc : (floodScanAux p allDirections g false).2.2 with
    | false => exact (floodScanAux_cont_false hc).2.2
    | true =>
        exfalso
        rw [TileLoop_active_red hx hcls] at hset
        rw [hc] at hset
        simp only [Bool.not_true, Bool.false_and, Bool.false_eq_true, if_false] at hset
        rw [floodScanAux_get_p p allDirections g false] at hset
        rw [hnf] at hset
        cases hset
  · intro hskip
    rw [TileLoop_active_quiet hx hcls ht hskip]
    show ((g.set p { g.get p with nonFlooding := true }).get p).nonFlooding = true
    rw [Grid.get_set_self hb]

/-! Concrete grids for the counterexamples and witnesses. -/

/-- A plain open-sea water tile. -/
def seaTile : TileData := { ttype := .water, wtype := .clear, wclass := .sea }

/-- Slope `SLOPE_ENW` (corners E, N and W raised). -/
def slopeENW : Slope := ⟨true, false, true, true, false⟩

/-- Slope `SLOPE_SE` (corners S and E raised). -/
def slopeSE : Slope := ⟨false, true, true, false, false⟩

/-- Slope `SLOPE_NW` (corners N and W raised). -/
def slopeNW : Slope := ⟨true, false, false, true, false⟩

/-- Slope `SLOPE_W` (one raised corner). -/
def slopeW : Slope := ⟨true, false, false, false, false⟩

/-- Grid for the C2 counterexample and witness: a sea source at (1,1), a
flat clear target at (1,2), and an elevated canal at (0,1) adjacent to
both; everything else is sea. -/
def c2Grid : Grid :=
  ⟨3, 3, fun x y =>
    if x == 0 && y == 1 then
      { ttype := .water, wtype := .clear, wclass := .canal, height := 1, foundHeight := 1 }
    else if x == 1 && y == 2 then { ttype := .clear }
    else seaTile⟩

/-- Grid for the C4 counterexample: a sea source at (1,1) and a clear tile
with three raised corners (`SLOPE_ENW`) at the corner coordinate (0,0),
reachable from the source only through the cardinal direction N. -/
def c4Grid : Grid :=
  ⟨3, 3, fun x y =>
    if x == 0 && y == 0 then { ttype := .clear, slope := slopeENW, foundSlope := slopeENW }
    else seaTile⟩

/-- Grid for the C4 witness: a sea source at (1,1) and a flat clear tile
at (1,2). -/
def c4wGrid : Grid :=
  ⟨3, 3, fun x y => if x == 1 && y == 2 then { ttype := .clear } else seaTile⟩

/-- Grid for the C5 counterexample: a single coast tile with slope
`SLOPE_SE`, whose only allowed-entry direction (NW) points off the map. -/
def c5Grid : Grid :=
  ⟨1, 1, fun _ _ =>
    { ttype := .water, wtype := .coast, wclass := .sea, slope := slopeSE,
      foundSlope := slopeSE }⟩

/-- Grid for the C5 witness: a coast tile with two raised corners
(`SLOPE_NW`) at (1,1) surrounded by raised clear land that classifies
None. -/
def c5wGrid : Grid :=
  ⟨3, 3, fun x y =>
    if x == 1 && y == 1 then
      { ttype := .water, wtype := .coast, wclass := .sea, slope := slopeNW,
        foundSlope := slopeNW }
    else { ttype := .clear, height := 1, foundHeight := 1 }⟩

/-- Grid for the C6 counterexample: a single sloped clear tile with one
raised corner. -/
def c6Grid : Grid :=
  ⟨1, 1, fun _ _ => { ttype := .clear, slope := slopeW, foundSlope := slopeW }⟩

/-- Grid for the C6 witness: a single flat clear tile. -/
def c6wGrid : Grid := ⟨1, 1, fun _ _ => { ttype := .clear }⟩

/-- Grid for the C3 witness: a single sloped clear tile with one raised
corner. -/
def c3wGrid : Grid :=
  ⟨1, 1, fun _ _ => { ttype := .clear, slope := slopeW, foundSlope := slopeW }⟩

/-- Grid for the C7 witness: sea everywhere. -/
def c7wGrid : Grid := ⟨3, 3, fun _ _ => seaTile⟩

/-- Grid for the C8 counterexample: a sea source at (1,1) whose N corner
neighbour (0,0) is raised clear land; everything else is sea. -/
def c8Grid : Grid :=
  ⟨3, 3, fun x y =>
    if x == 0 && y == 0 then { ttype := .clear, height := 1, foundHeight := 1 }
    else seaTile⟩

/-- Grid for the C8 witness: sea everywhere. -/
def c8wGrid : Grid := ⟨3, 3, fun _ _ => seaTile⟩

/-- Grid for the C9 counterexample: a sea source at (1,1) and a flat tree
tile at (1,2). -/
def c9Grid : Grid :=
  ⟨3, 3, fun x y => if x == 1 && y == 2 then { ttype := .trees } else seaTile⟩

/-- Grid for the C9 witness: a single tree tile with two raised corners. -/
def c9wGrid : Grid :=
  ⟨1, 1, fun _ _ => { ttype := .trees, slope := slopeNW, foundSlope := slopeNW }⟩

/-- Grid for the C10 witness: a single coast tile occupied by a vehicle
(the landscape-clear command fails). -/
def c10wGrid : Grid :=
  ⟨1, 1, fun _ _ =>
    { ttype := .water, wtype := .coast, wclass := .sea, slope := slopeSE,
      foundSlope := slopeSE, clearOk := false }⟩

/-! Counterexamples and witnesses. -/

/-- C2 counterexample: the elevated canal at (0,1) is a neighbour (via NE)
of the Active sea source at (1,1) with nonzero effective elevation, yet
the invocation emits a redraw notification for it — contradicting the
claim that no redraw notification is ever emitted for an elevated
neighbour. -/
theorem c2_counterexample :
    GetFloodingBehaviour (c2Grid.get ⟨1, 1⟩) = .active ∧
    AddTileIndexDiffCWrap c2Grid ⟨1, 1⟩ .NE = some ⟨0, 1⟩ ∧
    (c2Grid.get ⟨0, 1⟩).foundHeight = 1 ∧
    Ev.dirty ⟨0, 1⟩ ∈ (TileLoop_Water c2Grid ⟨1, 1⟩).2 := by
  refine ⟨by decide, by decide, by decide, by decide⟩

/-- C2 witness: the amended theorem applied at the concrete grid. -/
theorem c2_witness :
    (GetFloodingBehaviour (c2Grid.get ⟨1, 1⟩) = .active ∧
     AddTileIndexDiffCWrap c2Grid ⟨1, 1⟩ .NE = some ⟨0, 1⟩ ∧
     (c2Grid.get ⟨0, 1⟩).foundHeight ≠ 0) ∧
    ((TileLoop_Water c2Grid ⟨1, 1⟩).1.get ⟨0, 1⟩ = c2Grid.get ⟨0, 1⟩ ∧
     Ev.floodVeh ⟨0, 1⟩ ∉ (TileLoop_Water c2Grid ⟨1, 1⟩).2 ∧
     (Ev.dirty ⟨0, 1⟩ ∈ (TileLoop_Water c2Grid ⟨1, 1⟩).2 →
       isCanalOrRiver (c2Grid.get ⟨0, 1⟩) = true)) :=
  ⟨⟨by decide, by decide, by decide⟩,
    c2_elevated_neighbour_safe c2Grid ⟨1, 1⟩ .NE ⟨0, 1⟩ (by decide) (by decide) (by decide)⟩

/-- C3 witness: the theorem applied to a sloped clear tile, which floods
to coast. -/
theorem c3_witness :
    ((c3wGrid.get ⟨0, 0⟩).ttype = .clear ∧ (c3wGrid.get ⟨0, 0⟩).foundHeight = 0 ∧
      (c3wGrid.get ⟨0, 0⟩).clearOk = true ∧ (c3wGrid.get ⟨0, 0⟩).slope ≠ SLOPE_FLAT) ∧
    (((DoFloodTile c3wGrid ⟨0, 0⟩).1.get ⟨0, 0⟩).ttype = .water ∧
      ((DoFloodTile c3wGrid ⟨0, 0⟩).1.get ⟨0, 0⟩).wtype = .coast) :=
  ⟨⟨by decide, by decide, by decide, by decide⟩,
    (c3_clear_flood_shape c3wGrid ⟨0, 0⟩ (by decide) (by decide) (by decide)).1 (by decide)⟩

/-- C4 counterexample: the corner tile (0,0), reachable from the Active
source (1,1) only through the cardinal direction N, is inspected and
converted — contradicting the claim that only the four diagonal
neighbours are considered as flooding targets. -/
theorem c4_counterexample :
    GetFloodingBehaviour (c4Grid.get ⟨1, 1⟩) = .active ∧
    AddTileIndexDiffCWrap c4Grid ⟨1, 1⟩ .N = some ⟨0, 0⟩ ∧
    dirOffset .N = (-1, -1) ∧
    AddTileIndexDiffCWrap c4Grid ⟨1, 1⟩ .NE ≠ some ⟨0, 0⟩ ∧
    AddTileIndexDiffCWrap c4Grid ⟨1, 1⟩ .SE ≠ some ⟨0, 0⟩ ∧
    AddTileIndexDiffCWrap c4Grid ⟨1, 1⟩ .SW ≠ some ⟨0, 0⟩ ∧
    AddTileIndexDiffCWrap c4Grid ⟨1, 1⟩ .NW ≠ some ⟨0, 0⟩ ∧
    (c4Grid.get ⟨0, 0⟩).ttype = .clear ∧
    ((TileLoop_Water c4Grid ⟨1, 1⟩).1.get ⟨0, 0⟩).ttype = .water := by
  refine ⟨by decide, by decide, by decide, by decide, by decide, by decide, by decide,
    by decide, by decide⟩

/-- C4 witness: the amended theorem applied where the SE neighbour of a
sea source is converted. -/
theorem c4_witness :
    ((TileLoop_Water c4wGrid ⟨1, 1⟩).1.get ⟨1, 2⟩ ≠ c4wGrid.get ⟨1, 2⟩) ∧
    ((⟨1, 2⟩ : Pos) = (⟨1, 1⟩ : Pos) ∨
      ∃ d, AddTileIndexDiffCWrap c4wGrid ⟨1, 1⟩ d = some ⟨1, 2⟩) :=
  ⟨by decide, c4_changes_within_neighbourhood c4wGrid ⟨1, 1⟩ ⟨1, 2⟩ (by decide)⟩

/-- C5 counterexample: a coast tile whose only slope-table direction
points outside the map dries up anyway — contradicting the claim that
out-of-bounds neighbours are counted and block drying. -/
theorem c5_counterexample :
    (c5Grid.get ⟨0, 0⟩).ttype = .water ∧
    (c5Grid.get ⟨0, 0⟩).wtype = .coast ∧
    GetFloodingBehaviour (c5Grid.get ⟨0, 0⟩) = .dryup ∧
    floodFromDirsTable (slopeIndex (c5Grid.get ⟨0, 0⟩).foundSlope) = [.NW] ∧
    AddTileIndexDiffCWrap c5Grid ⟨0, 0⟩ .NW = Option.none ∧
    ((TileLoop_Water c5Grid ⟨0, 0⟩).1.get ⟨0, 0⟩).ttype = .clear := by
  refine ⟨by decide, by decide, by decide, by decide, by decide, by decide⟩

/-- C5 witness: the amended theorem applied to a coast tile with two
raised corners surrounded by None-classified neighbours; it reverts to
plain clear land in one call. -/
theorem c5_witness :
    (GetFloodingBehaviour (c5wGrid.get ⟨1, 1⟩) = .dryup ∧
     (c5wGrid.get ⟨1, 1⟩).nonFlooding = false ∧
     ((floodFromDirsTable (slopeIndex (c5wGrid.get ⟨1, 1⟩).foundSlope)).any (fun d =>
        match AddTileIndexDiffCWrap c5wGrid ⟨1, 1⟩ d with
        | Option.none => false
        | some q =>
            GetFloodingBehaviour (c5wGrid.get q) == .active ||
            GetFloodingBehaviour (c5wGrid.get q) == .passive) = false)) ∧
    ((TileLoop_Water c5wGrid ⟨1, 1⟩).1.get ⟨1, 1⟩).ttype = .clear :=
  ⟨⟨by decide, by decide, by decide⟩,
    ((((c5_dryup_characterisation c5wGrid ⟨1, 1⟩ (by decide) (by decide)).2
      (by decide)).2.2 (by decide)).1 (by decide))⟩

/-- C6 counterexample: `DoFloodTile` converts a sloped clear tile to coast
without ever invoking the vehicle flood hook — contradicting the claim
that every conversion invokes the hook. -/
theorem c6_counterexample :
    (c6Grid.get ⟨0, 0⟩).ttype = .clear ∧
    ((DoFloodTile c6Grid ⟨0, 0⟩).1.get ⟨0, 0⟩).ttype = .water ∧
    ((DoFloodTile c6Grid ⟨0, 0⟩).1.get ⟨0, 0⟩).wtype = .coast ∧
    Ev.floodVeh ⟨0, 0⟩ ∉ (DoFloodTile c6Grid ⟨0, 0⟩).2 := by
  refine ⟨by decide, by decide, by decide, by decide⟩

/-- C6 witness: the amended theorem applied to a flat clear tile, where
the hook is invoked. -/
theorem c6_witness :
    ((c6wGrid.get ⟨0, 0⟩).ttype ≠ .water) ∧
    (Ev.floodVeh ⟨0, 0⟩ ∈ (DoFloodTile c6wGrid ⟨0, 0⟩).2 ↔
      ((c6wGrid.get ⟨0, 0⟩).slope = SLOPE_FLAT ∨
        ((c6wGrid.get ⟨0, 0⟩).ttype = .railway ∧
          (c6wGrid.get ⟨0, 0⟩).isPlainRail = true))) :=
  ⟨by decide, c6_hook_invocation c6wGrid ⟨0, 0⟩ (by decide)⟩

/-- C7 witness: the theorem applied to a sea tile surrounded by sea. -/
theorem c7_witness :
    ((c7wGrid.get ⟨1, 1⟩).ttype = .water ∧ (c7wGrid.get ⟨1, 1⟩).wtype = .clear ∧
      (c7wGrid.get ⟨1, 1⟩).wclass = .sea ∧ (c7wGrid.get ⟨1, 1⟩).nonFlooding = false) ∧
    ((TileLoop_Water c7wGrid ⟨1, 1⟩).2 = [] ∧
      TileLoop_Water (TileLoop_Water c7wGrid ⟨1, 1⟩).1 ⟨1, 1⟩ =
        ((TileLoop_Water c7wGrid ⟨1, 1⟩).1, [])) :=
  ⟨⟨by decide, by decide, by decide, by decide⟩,
    (c7_sea_idempotent c7wGrid ⟨1, 1⟩ (by decide) (by decide) (by decide) (by decide)
      (by decide)).2⟩

/-- C8 counterexample: a sea source whose only non-water neighbour is
raised clear land performs no conversion, yet its quiescence cache is not
set after the call — contradicting the claim that the cache is set
whenever no neighbour was eligible for conversion. -/
theorem c8_counterexample :
    (c8Grid.get ⟨1, 1⟩).ttype = .water ∧
    GetFloodingBehaviour (c8Grid.get ⟨1, 1⟩) = .active ∧
    (c8Grid.get ⟨0, 0⟩).foundHeight = 1 ∧
    TileLoop_Water c8Grid ⟨1, 1⟩ = (c8Grid, []) ∧
    ((TileLoop_Water c8Grid ⟨1, 1⟩).1.get ⟨1, 1⟩).nonFlooding = false := by
  refine ⟨by decide, by decide, by decide, rfl, by decide⟩

/-- C8 witness: the amended theorem applied to a sea tile surrounded by
sea, where the cache is set. -/
theorem c8_witness :
    ((c8wGrid.get ⟨1, 1⟩).ttype = .water ∧ (c8wGrid.get ⟨1, 1⟩).nonFlooding = false ∧
      GetFloodingBehaviour (c8wGrid.get ⟨1, 1⟩) = .active) ∧
    (((TileLoop_Water c8wGrid ⟨1, 1⟩).1.get ⟨1, 1⟩).nonFlooding = true ↔
      (allDirections.all (fun d =>
        match AddTileIndexDiffCWrap c8wGrid ⟨1, 1⟩ d with
        | some q => permanentlyUnfloodable (c8wGrid.get q)
        | Option.none => true)) = true) :=
  ⟨⟨by decide, by decide, by decide⟩,
    c8_cache_characterisation c8wGrid ⟨1, 1⟩ (by decide) (by decide) (by decide)⟩

/-- C9 counterexample: a flat tree tile next to an Active sea source is
converted outright to open water — contradicting the claim that a
vegetation tile is never converted to a different type by flooding. -/
theorem c9_counterexample :
    (c9Grid.get ⟨1, 2⟩).ttype = .trees ∧
    ((TileLoop_Water c9Grid ⟨1, 1⟩).1.get ⟨1, 2⟩).ttype = .water := by
  refine ⟨by decide, by decide⟩

/-- C9 witness: the amended theorem applied to a tree tile with two raised
corners, which is only marked with the shore tag. -/
theorem c9_witness :
    ((c9wGrid.get ⟨0, 0⟩).ttype = .trees) ∧
    ((c9wGrid.get ⟨0, 0⟩).slope ≠ SLOPE_FLAT ∧
      IsSlopeWithOneCornerRaised (c9wGrid.get ⟨0, 0⟩).slope = false) ∧
    (DoFloodTile c9wGrid ⟨0, 0⟩).1.get ⟨0, 0⟩ =
      { c9wGrid.get ⟨0, 0⟩ with treeGround := .shore, treeDensity := 3 } :=
  ⟨by decide, ⟨by decide, by decide⟩,
    (c9_trees_flood_cases c9wGrid ⟨0, 0⟩ (by decide)).1 ⟨by decide, by decide⟩⟩

/-- C10 witness: the theorem applied to a coast tile on which the
landscape-clear command fails; the call changes nothing and emits
nothing. -/
theorem c10_witness :
    ((c10wGrid.get ⟨0, 0⟩).ttype = .water ∧ (c10wGrid.get ⟨0, 0⟩).wtype = .coast ∧
      (c10wGrid.get ⟨0, 0⟩).clearOk = false) ∧
    DoDryUp c10wGrid ⟨0, 0⟩ = (c10wGrid, []) :=
  ⟨⟨by decide, by decide, by decide⟩,
    (c10_dryup_coast_atomic c10wGrid ⟨0, 0⟩ (by decide) (by decide)).1 (by decide)⟩

end OpenTTDFlood
